import Mathlib

/-!
Verification development for the backstage load-testing scripts.

The repository consists of two Python scripts:
  * services/device/create_devices.py — the Provisioner: creates an
    organization and a batch of devices over HTTP and writes the collected
    device records to a JSON file;
  * services/device/locustfile.py — the Telemetry Replayer: per simulated
    user, loads the device file, picks one device, and repeatedly sends a
    randomized telemetry message.

The scripts are shallowly embedded below.  All HTTP effects are modelled by
explicit oracles: a device-creation run takes a function from the request
index to the response the server returned for that request; randomness is
modelled by explicit random-source arguments.  Machine integers do not
overflow in these scripts (Python integers are unbounded), so Nat and Int
are used directly.
-/

namespace Backstage

/-- Model of an HTTP response to a provisioning POST, as the scripts observe
it: the status code, the two JSON-body fields the code reads (each field is
none when the key is absent or the body is not a JSON object, in which case
the Python lookup raises), and the raw body text used in log lines. -/
structure DevResponse where
  status : Nat
  body_id : Option Int
  body_uid : Option String
  text : String
deriving DecidableEq

/-- A persisted device record, mirroring the dict
appended in create_devices.py line 54: keys id, uid, serial. -/
structure DeviceRecord where
  id : Int
  uid : String
  serial : String
deriving DecidableEq

/-- The request payload built for one device in create_devices.py
lines 39-45. -/
structure DevicePayload where
  uid : String
  serial : String
  organization_id : Int
  allow_updates : Bool
  active : Bool
deriving DecidableEq

/-- Observable side effects of one create_devices run, in order:
failLog d s t embeds the printed line
Failed to create device d: s - t (create_devices.py line 50);
progress c embeds the printed line Created c devices (line 62);
sleep q embeds time.sleep(q) (line 65). -/
inductive Event where
  | failLog (deviceNum status : Nat) (text : String)
  | progress (count : Nat)
  | sleep (seconds : ℚ)
deriving DecidableEq

/-- True on the status codes the Provisioner treats as success: the code
tests membership in (200, 201) (create_devices.py lines 19 and 49). -/
def pySuccessStatus (s : Nat) : Bool :=
  s == 200 || s == 201

/-- Decides the 2xx wording used by several claims: any status in 200..299.
This is claim vocabulary, not code; the code tests exactly 200 and 201. -/
def is2xx (s : Nat) : Bool :=
  decide (200 ≤ s) && decide (s < 300)

/-- Little-endian decimal digits of n, computed with explicit fuel so that
the kernel can evaluate it; proved equal to Nat.digits 10 below. -/
def digitsRev : Nat → Nat → List Nat
  | 0, _ => []
  | fuel + 1, n => if n = 0 then [] else n % 10 :: digitsRev fuel (n / 10)

/-- Little-endian decimal digits of n. -/
def decimalDigits (n : Nat) : List Nat :=
  digitsRev n n

/-- The character of a decimal digit. -/
def digitChar (d : Nat) : Char :=
  Char.ofNat (48 + d)

/-- Embeds the Python format i:04d used for serial numbers: the decimal
digits of i, most significant first, left-padded with the zero character to
a minimum width of 4. -/
def fmt04 (i : Nat) : String :=
  String.mk ((List.replicate (4 - (decimalDigits i).length) 0
    ++ (decimalDigits i).reverse).map digitChar)

/-- The serial generated for device index i (create_devices.py line 36). -/
def serialOf (i : Nat) : String :=
  "LOADTEST" ++ fmt04 i

/-- The request payload sent for device index i (create_devices.py
lines 39-45); uuidGen models str(uuid.uuid4()) as an oracle of the index. -/
def devicePayload (uuidGen : Nat → String) (orgId : Int) (i : Nat) :
    DevicePayload :=
  { uid := uuidGen i
    serial := serialOf i
    organization_id := orgId
    allow_updates := true
    active := true }

/-- The device-creation loop of create_devices.py lines 34-65, over the list
of remaining indices.  oracle i is the response the server returned to the
POST for index i.  Returns error e when a successful response has a body on
which the lookup of id or uid raises (uncaught KeyError or TypeError),
modelling termination of the run; otherwise returns the accumulated records
together with the ordered trace of observable events.  On a non-success
status the code logs and continues, skipping the sleep at the end of the
loop body. -/
def devLoop (oracle : Nat → DevResponse) (uuidGen : Nat → String)
    (orgId : Int) : List Nat → Except String (List DeviceRecord × List Event)
  | [] => .ok ([], [])
  | i :: rest =>
    let payload := devicePayload uuidGen orgId i
    let resp := oracle i
    if pySuccessStatus resp.status then
      match resp.body_id with
      | none => .error "KeyError: id"
      | some did =>
        match resp.body_uid with
        | none => .error "KeyError: uid"
        | some duid =>
          match devLoop oracle uuidGen orgId rest with
          | .error e => .error e
          | .ok (rs, es) =>
            .ok ({ id := did, uid := duid, serial := payload.serial } :: rs,
              (if (i + 1) % 100 == 0 then [Event.progress (i + 1)] else [])
                ++ Event.sleep (1/10) :: es)
    else
      match devLoop oracle uuidGen orgId rest with
      | .error e => .error e
      | .ok (rs, es) =>
        .ok (rs, Event.failLog (i + 1) resp.status resp.text :: es)

/-- Embeds create_devices(base_url, org_id, num_devices, output_file):
runs the loop over indices 0..num_devices-1.  The base_url and output_file
arguments are pure plumbing (URL composition and file name) and are not
modelled. -/
def create_devices (oracle : Nat → DevResponse) (uuidGen : Nat → String)
    (orgId : Int) (num_devices : Nat) :
    Except String (List DeviceRecord × List Event) :=
  devLoop oracle uuidGen orgId (List.range num_devices)

/-- The JSON array written to output_file: json.dump(devices, f) runs only
when the loop finished without an uncaught exception. -/
def artifactFile (oracle : Nat → DevResponse) (uuidGen : Nat → String)
    (orgId : Int) (num_devices : Nat) : Option (List DeviceRecord) :=
  (create_devices oracle uuidGen orgId num_devices).toOption.map Prod.fst

/-- Outcome of create_organization: exited models sys.exit(1) on a
non-success status; raised models an uncaught exception from the body
lookup; ok is the returned organization id. -/
inductive OrgResult where
  | exited (msg : String)
  | raised (msg : String)
  | ok (id : Int)
deriving DecidableEq

/-- Embeds create_organization(base_url, org_name) given the response the
server returned (create_devices.py lines 9-25): non-success status exits
the process; otherwise the id field of the JSON body is looked up without a
guard. -/
def create_organization (resp : DevResponse) : OrgResult :=
  if pySuccessStatus resp.status then
    match resp.body_id with
    | none => .raised "KeyError: id"
    | some i => .ok i
  else
    .exited ("Failed to create organization: "
      ++ toString resp.status ++ " - " ++ resp.text)

/-- Python truthiness of an optional integer: None and 0 are falsy. -/
def pyTruthyOptInt : Option Int → Bool
  | none => false
  | some n => n != 0

/-- Embeds the line org_id = args.org if args.org else
create_organization(args.url) of main (create_devices.py line 86) as a
function of the parsed --org argument and of the id a call to
create_organization would return.  First component: the organization id
used; second component: whether create_organization is called. -/
def mainOrgId (argsOrg : Option Int) (createdId : Int) : Int × Bool :=
  if pyTruthyOptInt argsOrg then
    (argsOrg.getD 0, false)
  else
    (createdId, true)

/-- Bool test selecting sleep events. -/
def isSleep : Event → Bool
  | .sleep _ => true
  | _ => false

/-- Bool test selecting progress events. -/
def isProgress : Event → Bool
  | .progress _ => true
  | _ => false

/-- Model of a response to the message-ingestion POST in the Replayer. -/
structure MsgResponse where
  status : Nat
  text : String
deriving DecidableEq

/-- JSON-like values appearing in a generated telemetry message. -/
inductive JVal where
  | jstr (s : String)
  | jint (n : Int)
  | jrat (q : ℚ)
deriving DecidableEq

/-- Random sources consumed by one call of generate_message
(locustfile.py lines 36-60).  Each random.randint(a, b) call is modelled as
a + src % (b - a + 1) from a Nat source, which ranges exactly over the
integers of [a, b]; addTs and addTemp are the outcomes of the comparisons
random.random() lt 0.3 and random.random() lt 0.2; tempU models
random.uniform(35.5, 85.0), which lies in that closed interval; now models
int(time.time()). -/
structure RandSrc where
  rssSrc : Nat
  msSrc : Nat
  sSrc : Nat
  mmSrc : Nat
  addTs : Bool
  addTemp : Bool
  tempU : ℚ
  now : Nat

/-- Embeds random.randint(lo, hi) (inclusive bounds) from a Nat source. -/
def pyRandint (lo hi src : Nat) : Nat :=
  lo + src % (hi - lo + 1)

/-- Embeds round(x, 2): x rounded to 2 decimal places.  Python rounds float
ties to even; Mathlib round breaks ties upward.  The two agree except on
exact midpoints, and the facts proved below (interval preservation and the
two-decimal form of the result) hold under either tie-breaking rule. -/
def pyRound2 (x : ℚ) : ℚ :=
  (round (100 * x) : ℤ) / 100

/-- Embeds generate_message of locustfile.py lines 36-60 as the ordered
key-value list of the produced dict. -/
def generate_message (r : RandSrc) : List (String × JVal) :=
  let ram_usage := pyRandint 20 95 r.rssSrc
  let milliseconds := pyRandint 1000000 9999999 r.msSrc
  let seconds_up := pyRandint 1 86400 r.sSrc
  let memory_map := pyRandint 10000 99999 r.mmSrc
  let message : List (String × JVal) :=
    [("ev", .jstr "check"),
     ("rss", .jint ram_usage),
     ("ms", .jint milliseconds),
     ("s", .jint seconds_up),
     ("mm", .jint memory_map)]
  let message := if r.addTs then message ++ [("ts", .jint r.now)] else message
  let message :=
    if r.addTemp then message ++ [("temp", .jrat (pyRound2 r.tempU))]
    else message
  message

/-- The per-user state retained by on_start: self.device and
self.device_uid (locustfile.py lines 28-30). -/
structure UserState where
  device : DeviceRecord
  device_uid : String
deriving DecidableEq

/-- Result of the on_start hook: quit models
self.environment.runner.quit() with the error lines printed before it;
ready carries the retained per-user state. -/
inductive StartResult where
  | quit (errLines : List String)
  | ready (st : UserState)
deriving DecidableEq

/-- Embeds the on_start hook of locustfile.py lines 16-33.  fileContent is
none when opening or parsing devices.json raises (file missing or
unreadable), and some l when the file parses to the list l; choice models
random.choice by an index source. -/
def on_start (fileContent : Option (List DeviceRecord)) (choice : Nat) :
    StartResult :=
  match fileContent with
  | none =>
    .quit ["Error loading devices.json",
      "Make sure to run create_devices.py first to generate the devices file."]
  | some [] =>
    .quit ["No devices found in devices.json. Run create_devices.py first."]
  | some (d :: ds) =>
    let dev := (d :: ds).getD (choice % (d :: ds).length) d
    .ready { device := dev, device_uid := dev.uid }

/-- The envelope POSTed by the send task (locustfile.py lines 66-71).  The
message field is JSON-serialized in the code; the serialization itself is
not inspected by any claim, so the structured message is carried. -/
structure Envelope where
  device_uid : String
  message : List (String × JVal)
  sent_via : String
deriving DecidableEq

/-- Harness-visible classification of one send. -/
inductive SendOutcome where
  | success
  | failure (msg : String)
deriving DecidableEq

/-- Result of one send task: the requests actually POSTed (exactly one, the
code performs no retry), the outcome reported to the harness, and the
printed log lines. -/
structure SendResult where
  posted : List Envelope
  outcome : SendOutcome
  logs : List String
deriving DecidableEq

/-- Embeds send_device_message of locustfile.py lines 62-89: builds the
envelope, issues one POST (response given by resp), marks success exactly
on status 200, and otherwise marks failure and prints one line carrying the
current time, the device serial, the status code and the response text. -/
def send_device_message (st : UserState) (msg : List (String × JVal))
    (current_time : String) (resp : MsgResponse) : SendResult :=
  let payload : Envelope :=
    { device_uid := st.device_uid, message := msg, sent_via := "locust-test" }
  if resp.status == 200 then
    { posted := [payload], outcome := .success, logs := [] }
  else
    let error_msg := "Failed to send message: "
      ++ toString resp.status ++ " - " ++ resp.text
    { posted := [payload]
      outcome := .failure error_msg
      logs := ["[" ++ current_time ++ "] Device "
        ++ st.device.serial ++ ": " ++ error_msg] }

/-- Modelled from the spec: the locust harness (external to this
repository) schedules the task method repeatedly for a user only while the
runner keeps running; a user whose startup hook called runner.quit executes
no send task.  Each scheduled task draws a fresh random source, a timestamp
string, and receives one response. -/
def userRun (fileContent : Option (List DeviceRecord)) (choice : Nat)
    (tasks : List (RandSrc × String × MsgResponse)) : List SendResult :=
  match on_start fileContent choice with
  | .quit _ => []
  | .ready st =>
    tasks.map (fun t => send_device_message st (generate_message t.1) t.2.1 t.2.2)

theorem digitsRev_eq_digits (fuel n : Nat) (h : n ≤ fuel) :
    digitsRev fuel n = Nat.digits 10 n := by
  induction fuel generalizing n with
  | zero =>
    have hn : n = 0 := Nat.le_zero.mp h
    subst hn
    simp [digitsRev]
  | succ fuel ih =>
    by_cases hn : n = 0
    · simp [digitsRev, hn]
    · rw [digitsRev, if_neg hn,
        Nat.digits_def' (by norm_num : 1 < 10) (Nat.pos_of_ne_zero hn),
        ih (n / 10) (by omega)]

theorem decimalDigits_eq_digits (n : Nat) :
    decimalDigits n = Nat.digits 10 n :=
  digitsRev_eq_digits n n le_rfl

theorem fmt04_seven : fmt04 7 = "0007" := by decide

theorem serialOf_zero : serialOf 0 = "LOADTEST0000" := by decide

theorem serialOf_large : serialOf 12345 = "LOADTEST12345" := by decide

theorem mem_padded_lt_ten (i k x : Nat)
    (hx : x ∈ List.replicate k 0 ++ (Nat.digits 10 i).reverse) : x < 10 := by
  rcases List.mem_append.mp hx with hrep | hrev
  · have := List.eq_of_mem_replicate hrep
    omega
  · exact Nat.digits_lt_base (by norm_num) (List.mem_reverse.mp hrev)

theorem digitChar_inj_lt_ten :
    ∀ a, a < 10 → ∀ b, b < 10 → digitChar a = digitChar b → a = b := by
  decide

theorem map_digitChar_inj (l1 l2 : List Nat) (h1 : ∀ x ∈ l1, x < 10)
    (h2 : ∀ x ∈ l2, x < 10) (h : l1.map digitChar = l2.map digitChar) :
    l1 = l2 := by
  induction l1 generalizing l2 with
  | nil => cases l2 <;> simp_all
  | cons a t ih =>
    cases l2 with
    | nil => simp_all
    | cons b t2 =>
      simp only [List.map_cons, List.cons.injEq] at h
      have ha : a < 10 := h1 a (List.mem_cons_self a t)
      have hb : b < 10 := h2 b (List.mem_cons_self b t2)
      have hab := digitChar_inj_lt_ten a ha b hb h.1
      have ht := ih t2 (fun x hx => h1 x (List.mem_cons_of_mem a hx))
        (fun x hx => h2 x (List.mem_cons_of_mem b hx)) h.2
      rw [hab, ht]

theorem ofDigits_replicate_zero (k : Nat) :
    Nat.ofDigits 10 (List.replicate k 0) = 0 := by
  induction k with
  | zero => simp [Nat.ofDigits_nil]
  | succ k ih => simp [List.replicate_succ, Nat.ofDigits_cons, ih]

theorem padded_digits_value (i k : Nat) :
    Nat.ofDigits 10 ((List.replicate k 0 ++ (Nat.digits 10 i).reverse).reverse)
      = i := by
  rw [List.reverse_append, List.reverse_reverse, List.reverse_replicate,
    Nat.ofDigits_append, Nat.ofDigits_digits, ofDigits_replicate_zero]
  ring

theorem fmt04_injective (a b : Nat) (h : fmt04 a = fmt04 b) : a = b := by
  unfold fmt04 at h
  rw [decimalDigits_eq_digits, decimalDigits_eq_digits] at h
  have hdata := congrArg String.data h
  simp only [String.mk] at hdata
  have hlists := map_digitChar_inj _ _
    (fun x hx => mem_padded_lt_ten a _ x hx)
    (fun x hx => mem_padded_lt_ten b _ x hx) hdata
  have hval : Nat.ofDigits 10
      ((List.replicate (4 - (Nat.digits 10 a).length) 0
        ++ (Nat.digits 10 a).reverse).reverse)
      = Nat.ofDigits 10
      ((List.replicate (4 - (Nat.digits 10 b).length) 0
        ++ (Nat.digits 10 b).reverse).reverse) := by
    rw [hlists]
  rw [padded_digits_value, padded_digits_value] at hval
  exact hval

theorem serialOf_injective (a b : Nat) (h : serialOf a = serialOf b) :
    a = b := by
  unfold serialOf at h
  have hdata := congrArg String.data h
  simp only [String.data_append] at hdata
  have hfmt : (fmt04 a).data = (fmt04 b).data :=
    (List.append_right_inj _).mp hdata
  exact fmt04_injective a b (String.ext hfmt)

/-- The record the loop appends for index i: some record exactly when the
response status is a success and both body lookups succeed. -/
def recOf (oracle : Nat → DevResponse) (uuidGen : Nat → String) (orgId : Int)
    (i : Nat) : Option DeviceRecord :=
  if pySuccessStatus (oracle i).status then
    match (oracle i).body_id, (oracle i).body_uid with
    | some did, some duid =>
      some { id := did, uid := duid
             serial := (devicePayload uuidGen orgId i).serial }
    | _, _ => none
  else none

/-- The events the loop emits for index i, provided the iteration does not
raise. -/
def evsOf (oracle : Nat → DevResponse) (i : Nat) : List Event :=
  if pySuccessStatus (oracle i).status then
    (if (i + 1) % 100 == 0 then [Event.progress (i + 1)] else [])
      ++ [Event.sleep (1/10)]
  else
    [Event.failLog (i + 1) (oracle i).status (oracle i).text]

/-- Well-formedness of the response at index i: if the status is a success,
both body lookups succeed. -/
def wfAt (oracle : Nat → DevResponse) (i : Nat) : Prop :=
  pySuccessStatus (oracle i).status = true →
    (oracle i).body_id.isSome = true ∧ (oracle i).body_uid.isSome = true

theorem devLoop_ok_char (oracle : Nat → DevResponse) (uuidGen : Nat → String)
    (orgId : Int) (l : List Nat) (rs : List DeviceRecord) (es : List Event)
    (h : devLoop oracle uuidGen orgId l = .ok (rs, es)) :
    (∀ i ∈ l, wfAt oracle i)
      ∧ rs = l.filterMap (recOf oracle uuidGen orgId)
      ∧ es = (l.map (evsOf oracle)).flatten := by
  induction l generalizing rs es with
  | nil =>
    simp only [devLoop, Except.ok.injEq, Prod.mk.injEq] at h
    simp [h.1.symm, h.2.symm]
  | cons i rest ih =>
    simp only [devLoop] at h
    by_cases hs : pySuccessStatus (oracle i).status = true
    · rw [if_pos hs] at h
      cases hid : (oracle i).body_id with
      | none => rw [hid] at h; cases h
      | some did =>
        rw [hid] at h
        cases huid : (oracle i).body_uid with
        | none => rw [huid] at h; cases h
        | some duid =>
          rw [huid] at h
          cases hrec : devLoop oracle uuidGen orgId rest with
          | error e => rw [hrec] at h; cases h
          | ok p =>
            obtain ⟨rs', es'⟩ := p
            rw [hrec] at h
            simp only [Except.ok.injEq, Prod.mk.injEq] at h
            obtain ⟨hrs, hes⟩ := h
            obtain ⟨ihwf, ihrs, ihes⟩ := ih rs' es' hrec
            refine ⟨?_, ?_, ?_⟩
            · intro j hj
              rcases List.mem_cons.mp hj with hji | hjr
              · subst hji
                intro _
                simp [hid, huid]
              · exact ihwf j hjr
            · rw [← hrs, ihrs]
              simp [List.filterMap_cons, recOf, hs, hid, huid]
            · rw [← hes, ihes]
              simp [evsOf, hs]
    · rw [if_neg hs] at h
      cases hrec : devLoop oracle uuidGen orgId rest with
      | error e => rw [hrec] at h; cases h
      | ok p =>
        obtain ⟨rs', es'⟩ := p
        rw [hrec] at h
        simp only [Except.ok.injEq, Prod.mk.injEq] at h
        obtain ⟨hrs, hes⟩ := h
        obtain ⟨ihwf, ihrs, ihes⟩ := ih rs' es' hrec
        refine ⟨?_, ?_, ?_⟩
        · intro j hj
          rcases List.mem_cons.mp hj with hji | hjr
          · subst hji
            intro hc
            exact absurd hc hs
          · exact ihwf j hjr
        · rw [← hrs, ihrs]
          simp [List.filterMap_cons, recOf, hs]
        · rw [← hes, ihes]
          simp [evsOf, hs]

theorem filterMap_recOf_length (oracle : Nat → DevResponse)
    (uuidGen : Nat → String) (orgId : Int) (l : List Nat)
    (h : ∀ i ∈ l, wfAt oracle i) :
    (l.filterMap (recOf oracle uuidGen orgId)).length
      = (l.filter (fun i => pySuccessStatus (oracle i).status)).length := by
  induction l with
  | nil => simp
  | cons i rest ih =>
    have hi := h i (List.mem_cons_self i rest)
    have hrest := ih (fun j hj => h j (List.mem_cons_of_mem i hj))
    by_cases hs : pySuccessStatus (oracle i).status = true
    · obtain ⟨hid, huid⟩ := hi hs
      obtain ⟨did, hdid⟩ := Option.isSome_iff_exists.mp hid
      obtain ⟨duid, hduid⟩ := Option.isSome_iff_exists.mp huid
      simp [List.filterMap_cons, List.filter_cons, recOf, hs, hdid, hduid,
        hrest]
    · simp [List.filterMap_cons, List.filter_cons, recOf, hs, hrest]

theorem sleep_count_evsOf (oracle : Nat → DevResponse) (l : List Nat) :
    (((l.map (evsOf oracle)).flatten).filter isSleep).length
      = (l.filter (fun i => pySuccessStatus (oracle i).status)).length := by
  induction l with
  | nil => simp
  | cons i rest ih =>
    rw [List.map_cons, List.flatten_cons, List.filter_append,
      List.length_append, ih, List.filter_cons]
    by_cases hs : pySuccessStatus (oracle i).status = true
    · cases hc : ((i + 1) % 100 == 0) <;>
        simp [evsOf, hs, hc, isSleep, List.filter_append] <;> omega
    · simp [evsOf, hs, isSleep]

theorem sleep_seconds_evsOf (oracle : Nat → DevResponse) (l : List Nat) :
    ∀ e ∈ (l.map (evsOf oracle)).flatten, isSleep e = true →
      e = Event.sleep (1/10) := by
  intro e he hsl
  obtain ⟨s, hs, hes⟩ := List.mem_flatten.mp he
  obtain ⟨i, _, hsi⟩ := List.mem_map.mp hs
  subst hsi
  unfold evsOf at hes
  by_cases hst : pySuccessStatus (oracle i).status = true
  · rw [if_pos hst] at hes
    rcases List.mem_append.mp hes with hpre | hsl1
    · cases hc : ((i + 1) % 100 == 0) <;> rw [hc] at hpre <;>
        simp_all [isSleep]
    · simp_all
  · rw [if_neg hst] at hes
    simp_all [isSleep]

theorem progress_evsOf (oracle : Nat → DevResponse) (l : List Nat) :
    ((l.map (evsOf oracle)).flatten).filter isProgress
      = (l.filter (fun i =>
          pySuccessStatus (oracle i).status && ((i + 1) % 100 == 0))).map
        (fun i => Event.progress (i + 1)) := by
  induction l with
  | nil => simp
  | cons i rest ih =>
    by_cases hs : pySuccessStatus (oracle i).status = true
    · cases hc : ((i + 1) % 100 == 0) <;>
        simp [evsOf, hs, hc, isProgress, List.filter_append, ih,
          List.filter_cons]
    · simp [evsOf, hs, isProgress, List.filter_append, ih, List.filter_cons]

theorem devLoop_error_of_bad (oracle : Nat → DevResponse)
    (uuidGen : Nat → String) (orgId : Int) (l : List Nat)
    (h : ∃ i ∈ l, pySuccessStatus (oracle i).status = true ∧
      ((oracle i).body_id = none ∨ (oracle i).body_uid = none)) :
    ∃ e, devLoop oracle uuidGen orgId l = .error e := by
  induction l with
  | nil => simp at h
  | cons i rest ih =>
    obtain ⟨j, hj, hjs, hjbad⟩ := h
    rcases List.mem_cons.mp hj with hji | hjr
    · subst hji
      simp only [devLoop, if_pos hjs]
      rcases hjbad with hbid | hbuid
      · rw [hbid]
        exact ⟨_, rfl⟩
      · cases hbid : (oracle j).body_id with
        | none => exact ⟨_, rfl⟩
        | some did =>
          rw [hbuid]
          exact ⟨_, rfl⟩
    · obtain ⟨e, herr⟩ := ih ⟨j, hjr, hjs, hjbad⟩
      simp only [devLoop, herr]
      by_cases hs : pySuccessStatus (oracle i).status = true
      · rw [if_pos hs]
        cases hbid : (oracle i).body_id with
        | none => exact ⟨_, rfl⟩
        | some did =>
          cases hbuid : (oracle i).body_uid with
          | none => exact ⟨_, rfl⟩
          | some duid => exact ⟨e, rfl⟩
      · rw [if_neg hs]
        exact ⟨e, rfl⟩

/-- C1 counterexample: the claim states the persisted uid equals the uid of
the request payload.  The code stores the uid read back from the response
body (create_devices.py line 56), so a server answering 200 with a
different uid yields a persisted record whose uid differs from the request
payload uid. -/
theorem claim1_counterexample :
    (devicePayload (fun _ => "client-uid") 5 0).uid = "client-uid"
    ∧ pySuccessStatus 200 = true
    ∧ create_devices (fun _ => DevResponse.mk 200 (some 7) (some "server-uid") "")
        (fun _ => "client-uid") 5 1
      = .ok ([{ id := 7, uid := "server-uid", serial := serialOf 0 }],
          [Event.sleep (1/10)])
    ∧ "server-uid" ≠ "client-uid" :=
  ⟨rfl, rfl, rfl, by decide⟩

/-- C1 amended: for every record appended by a completed run (every such
record stems from a response with status 200 or 201), the serial equals the
serial of the request payload sent for that index, while the id and uid are
the ones read from the response body; the uid equals the request uid only
when the server echoes it. -/
theorem claim1_record_fields (oracle : Nat → DevResponse)
    (uuidGen : Nat → String) (orgId : Int) (n : Nat)
    (rs : List DeviceRecord) (es : List Event)
    (h : create_devices oracle uuidGen orgId n = .ok (rs, es)) :
    ∀ r ∈ rs, ∃ i ∈ List.range n,
      pySuccessStatus (oracle i).status = true
      ∧ r.serial = (devicePayload uuidGen orgId i).serial
      ∧ (oracle i).body_uid = some r.uid
      ∧ (oracle i).body_id = some r.id := by
  intro r hr
  obtain ⟨-, hrs, -⟩ := devLoop_ok_char oracle uuidGen orgId _ rs es h
  rw [hrs] at hr
  obtain ⟨i, hi, hrec⟩ := List.mem_filterMap.mp hr
  refine ⟨i, hi, ?_⟩
  unfold recOf at hrec
  by_cases hs : pySuccessStatus (oracle i).status = true
  · rw [if_pos hs] at hrec
    cases hid : (oracle i).body_id with
    | none => rw [hid] at hrec; cases hrec
    | some did =>
      cases huid : (oracle i).body_uid with
      | none => rw [hid, huid] at hrec; cases hrec
      | some duid =>
        rw [hid, huid] at hrec
        simp only [Option.some.injEq] at hrec
        subst hrec
        exact ⟨hs, rfl, rfl, rfl⟩
  · rw [if_neg hs] at hrec
    cases hrec

/-- C1 witness: one device, server echoes nothing interesting; the theorem
applies to the concrete completed run. -/
theorem claim1_record_fields_witness :
    ∃ i ∈ List.range 1,
      pySuccessStatus ((fun _ => DevResponse.mk 200 (some 7) (some "srv") "")
        i).status = true
      ∧ (DeviceRecord.mk 7 "srv" (serialOf 0)).serial
        = (devicePayload (fun _ => "cli") 5 i).serial
      ∧ ((fun _ => DevResponse.mk 200 (some 7) (some "srv") "") i).body_uid
        = some (DeviceRecord.mk 7 "srv" (serialOf 0)).uid
      ∧ ((fun _ => DevResponse.mk 200 (some 7) (some "srv") "") i).body_id
        = some (DeviceRecord.mk 7 "srv" (serialOf 0)).id :=
  claim1_record_fields (fun _ => DevResponse.mk 200 (some 7) (some "srv") "")
    (fun _ => "cli") 5 1 [{ id := 7, uid := "srv", serial := serialOf 0 }]
    [Event.sleep (1/10)] rfl
    { id := 7, uid := "srv", serial := serialOf 0 } (by simp)

/-- C2 counterexample: one attempt whose response is a 500.  The loop body
hits continue before the sleep, so the completed run of one attempt
contains no sleep event at all, refuting the claim that a pause follows
every attempt. -/
theorem claim2_counterexample :
    create_devices (fun _ => DevResponse.mk 500 none none "boom")
        (fun _ => "u") 0 1
      = .ok ([], [Event.failLog 1 500 "boom"])
    ∧ (List.filter isSleep [Event.failLog 1 500 "boom"]).length = 0
    ∧ (List.range 1).length = 1 :=
  ⟨rfl, rfl, rfl⟩

/-- C2 amended: in every completed run, a fixed pause of 0.1 time units is
performed after each attempt whose response status was 200 or 201, and only
after those; failed attempts skip the pause via continue. -/
theorem claim2_sleep_after_success (oracle : Nat → DevResponse)
    (uuidGen : Nat → String) (orgId : Int) (n : Nat)
    (rs : List DeviceRecord) (es : List Event)
    (h : create_devices oracle uuidGen orgId n = .ok (rs, es)) :
    (es.filter isSleep).length
      = ((List.range n).filter
          (fun i => pySuccessStatus (oracle i).status)).length
    ∧ ∀ e ∈ es, isSleep e = true → e = Event.sleep (1/10) := by
  obtain ⟨-, -, hes⟩ := devLoop_ok_char oracle uuidGen orgId _ rs es h
  subst hes
  exact ⟨sleep_count_evsOf oracle _, sleep_seconds_evsOf oracle _⟩

/-- C2 witness: a run of two attempts, the first successful and the second
failing, has exactly one sleep event, of 0.1 time units. -/
theorem claim2_sleep_after_success_witness :
    ([Event.sleep (1/10), Event.failLog 2 404 "nf"].filter isSleep).length
      = ((List.range 2).filter
          (fun i => pySuccessStatus
            ((fun j => if j = 0 then DevResponse.mk 200 (some 1) (some "x") ""
              else DevResponse.mk 404 none none "nf") i).status)).length
    ∧ ∀ e ∈ [Event.sleep (1/10), Event.failLog 2 404 "nf"],
        isSleep e = true → e = Event.sleep (1/10) :=
  claim2_sleep_after_success
    (fun j => if j = 0 then DevResponse.mk 200 (some 1) (some "x") ""
      else DevResponse.mk 404 none none "nf")
    (fun _ => "u") 0 2 [{ id := 1, uid := "x", serial := serialOf 0 }]
    [Event.sleep (1/10), Event.failLog 2 404 "nf"] rfl

/-- C3 counterexample: the command line can supply the organization id 0,
which is falsy in Python, so the organization-creation step is not skipped
even though an id was supplied. -/
theorem claim3_counterexample :
    mainOrgId (some 0) 42 = (42, true) ∧ ((42 : Int), true) ≠ ((0 : Int), false) :=
  ⟨rfl, by decide⟩

/-- C3 amended: the organization-creation step is skipped exactly when the
supplied --org id is truthy (present and nonzero); with no --org, and also
with --org 0, create_organization is called and its id is used. -/
theorem claim3_org_choice :
    (∀ o : Int, o ≠ 0 → ∀ c : Int, mainOrgId (some o) c = (o, false))
    ∧ (∀ c : Int, mainOrgId none c = (c, true))
    ∧ (∀ c : Int, mainOrgId (some 0) c = (c, true)) := by
  refine ⟨fun o ho c => ?_, fun c => rfl, fun c => rfl⟩
  simp [mainOrgId, pyTruthyOptInt, ho]

/-- C3 witness: supplying the nonzero id 3 skips creation and uses 3. -/
theorem claim3_org_choice_witness :
    mainOrgId (some 3) 42 = (3, false) :=
  claim3_org_choice.1 3 (by decide) 42

/-- C4 counterexample: the claim counts 2xx responses, but the code only
treats 200 and 201 as success.  A single request answered 204 (a 2xx
status) is skipped, so the written file has 0 records while the number of
2xx responses is 1. -/
theorem claim4_counterexample :
    create_devices (fun _ => DevResponse.mk 204 (some 1) (some "x") "No Content")
        (fun _ => "u") 0 1
      = .ok ([], [Event.failLog 1 204 "No Content"])
    ∧ is2xx 204 = true
    ∧ ((List.range 1).filter (fun i => is2xx
        ((fun _ => DevResponse.mk 204 (some 1) (some "x") "No Content")
          i).status)).length = 1
    ∧ artifactFile (fun _ => DevResponse.mk 204 (some 1) (some "x") "No Content")
        (fun _ => "u") 0 1 = some [] :=
  ⟨rfl, rfl, rfl, rfl⟩

/-- C4 amended: for every completed run, the persisted artifact is an array
whose length equals the number of requests answered with status 200 or 201;
in particular, requesting 5 devices where exactly the 3rd request returns
status 500 yields a file with exactly 4 records (index 2 skipped) and a
logged failure line for device 3. -/
theorem claim4_artifact_length :
    (∀ (oracle : Nat → DevResponse) (uuidGen : Nat → String) (orgId : Int)
      (n : Nat) (l : List DeviceRecord),
      artifactFile oracle uuidGen orgId n = some l →
      l.length = ((List.range n).filter
        (fun i => pySuccessStatus (oracle i).status)).length)
    ∧ create_devices
        (fun i => if i = 2 then DevResponse.mk 500 none none "Internal Server Error"
          else DevResponse.mk 200 (some 1) (some "x") "")
        (fun _ => "u") 0 5
      = .ok ([{ id := 1, uid := "x", serial := serialOf 0 },
              { id := 1, uid := "x", serial := serialOf 1 },
              { id := 1, uid := "x", serial := serialOf 3 },
              { id := 1, uid := "x", serial := serialOf 4 }],
             [Event.sleep (1/10), Event.sleep (1/10),
              Event.failLog 3 500 "Internal Server Error",
              Event.sleep (1/10), Event.sleep (1/10)])
    ∧ [DeviceRecord.mk 1 "x" (serialOf 0), DeviceRecord.mk 1 "x" (serialOf 1),
        DeviceRecord.mk 1 "x" (serialOf 3),
        DeviceRecord.mk 1 "x" (serialOf 4)].length = 4
    ∧ Event.failLog 3 500 "Internal Server Error"
        ∈ [Event.sleep (1/10), Event.sleep (1/10),
            Event.failLog 3 500 "Internal Server Error",
            Event.sleep (1/10), Event.sleep (1/10)] := by
  refine ⟨?_, rfl, rfl, by simp⟩
  intro oracle uuidGen orgId n l h
  unfold artifactFile at h
  cases hc : create_devices oracle uuidGen orgId n with
  | error e => rw [hc] at h; cases h
  | ok p =>
    obtain ⟨rs, es⟩ := p
    rw [hc] at h
    simp only [Except.toOption, Option.map_some', Option.some.injEq] at h
    subst h
    obtain ⟨hwf, hrs, -⟩ := devLoop_ok_char oracle uuidGen orgId _ rs es hc
    rw [hrs]
    exact filterMap_recOf_length oracle uuidGen orgId _
      (fun i hi => hwf i hi)

/-- C4 witness: a run of one failing request writes an empty array, and the
success count is 0. -/
theorem claim4_artifact_length_witness :
    ([] : List DeviceRecord).length
      = ((List.range 1).filter
          (fun i => pySuccessStatus
            ((fun _ => DevResponse.mk 500 none none "b") i).status)).length :=
  claim4_artifact_length.1 (fun _ => DevResponse.mk 500 none none "b")
    (fun _ => "u") 0 1 [] rfl

/-- C5: the send task classifies a response as success exactly on status
200; any other status is classified as a failure and one line carrying the
timestamp, the device serial, the status code and the response body is
printed; exactly one POST is issued, with no retry. -/
theorem claim5_send_classification (st : UserState)
    (msg : List (String × JVal)) (current_time : String)
    (resp : MsgResponse) :
    ((send_device_message st msg current_time resp).outcome = .success
      ↔ resp.status = 200)
    ∧ (resp.status ≠ 200 →
        (send_device_message st msg current_time resp).outcome
          = .failure ("Failed to send message: "
              ++ toString resp.status ++ " - " ++ resp.text)
        ∧ (send_device_message st msg current_time resp).logs
          = ["[" ++ current_time ++ "] Device " ++ st.device.serial ++ ": "
              ++ ("Failed to send message: "
                ++ toString resp.status ++ " - " ++ resp.text)])
    ∧ (send_device_message st msg current_time resp).posted
      = [{ device_uid := st.device_uid, message := msg,
            sent_via := "locust-test" }] := by
  by_cases h : resp.status = 200
  · simp [send_device_message, h]
  · simp [send_device_message, h]

/-- C5 witness: a response with status 201 is classified as a failure and
logged, despite 201 being a conventional success code. -/
theorem claim5_send_classification_witness :
    (send_device_message
        { device := { id := 1, uid := "u", serial := "SER" }, device_uid := "u" }
        [] "TIME" { status := 201, text := "Created" }).outcome
      = .failure "Failed to send message: 201 - Created"
    ∧ (send_device_message
        { device := { id := 1, uid := "u", serial := "SER" }, device_uid := "u" }
        [] "TIME" { status := 201, text := "Created" }).logs
      = ["[TIME] Device SER: Failed to send message: 201 - Created"] :=
  (claim5_send_classification
    { device := { id := 1, uid := "u", serial := "SER" }, device_uid := "u" }
    [] "TIME" { status := 201, text := "Created" }).2.1 (by decide)

/-- C6 counterexample: in a run of 100 attempts where only the first fails,
99 devices are created — no multiple of 100 successes is ever reached — yet
one progress line is printed (at index 99, because the code tests the index
i + 1, not the success count). -/
theorem claim6_counterexample :
    ((create_devices
        (fun i => if i = 0 then DevResponse.mk 500 none none "e"
          else DevResponse.mk 200 (some 1) (some "x") "")
        (fun _ => "u") 0 100).toOption.map
      (fun p => (p.1.length, (p.2.filter isProgress).length)))
      = some (99, 1)
    ∧ 99 / 100 = 0 ∧ (1 : Nat) ≠ 0 := by
  refine ⟨by rfl, rfl, by decide⟩

/-- C6 amended: in every completed run, a progress line is emitted exactly
after the successful attempts at the indices i with (i + 1) divisible by
100, reporting i + 1 (the attempt index, not the success count). -/
theorem claim6_progress_at_hundredth_index (oracle : Nat → DevResponse)
    (uuidGen : Nat → String) (orgId : Int) (n : Nat)
    (rs : List DeviceRecord) (es : List Event)
    (h : create_devices oracle uuidGen orgId n = .ok (rs, es)) :
    es.filter isProgress
      = ((List.range n).filter
          (fun i => pySuccessStatus (oracle i).status
            && ((i + 1) % 100 == 0))).map
        (fun i => Event.progress (i + 1)) := by
  obtain ⟨-, -, hes⟩ := devLoop_ok_char oracle uuidGen orgId _ rs es h
  subst hes
  exact progress_evsOf oracle _

/-- C6 witness: a completed run of one successful attempt emits no progress
line, since index 0 has (0 + 1) % 100 nonzero. -/
theorem claim6_progress_witness :
    ([Event.sleep (1/10)] : List Event).filter isProgress
      = ((List.range 1).filter
          (fun i => pySuccessStatus
              ((fun _ => DevResponse.mk 200 (some 1) (some "x") "") i).status
            && ((i + 1) % 100 == 0))).map
        (fun i => Event.progress (i + 1)) :=
  claim6_progress_at_hundredth_index
    (fun _ => DevResponse.mk 200 (some 1) (some "x") "") (fun _ => "u") 0 1
    [{ id := 1, uid := "x", serial := serialOf 0 }] [Event.sleep (1/10)] rfl

theorem pyRandint_bounds (lo hi src : Nat) (h : lo ≤ hi) :
    lo ≤ pyRandint lo hi src ∧ pyRandint lo hi src ≤ hi := by
  unfold pyRandint
  have := Nat.mod_lt src (show 0 < hi - lo + 1 by omega)
  omega

theorem round_rat_mono (x y : ℚ) (h : x ≤ y) : round x ≤ round y := by
  rw [round_eq, round_eq]
  exact Int.floor_mono (by linarith)

theorem pyRound2_bounds (u lo hi : ℚ) (hlo : lo ≤ u) (hhi : u ≤ hi)
    (klo khi : ℤ) (hklo : (klo : ℚ) = 100 * lo) (hkhi : (khi : ℚ) = 100 * hi) :
    lo ≤ pyRound2 u ∧ pyRound2 u ≤ hi := by
  have h1 : klo ≤ round (100 * u) := by
    have := round_rat_mono ((klo : ℚ)) (100 * u) (by rw [hklo]; linarith)
    rwa [round_intCast] at this
  have h2 : round (100 * u) ≤ khi := by
    have := round_rat_mono (100 * u) ((khi : ℚ)) (by rw [hkhi]; linarith)
    rwa [round_intCast] at this
  have h1q : (klo : ℚ) ≤ (round (100 * u) : ℤ) := by exact_mod_cast h1
  have h2q : ((round (100 * u) : ℤ) : ℚ) ≤ khi := by exact_mod_cast h2
  unfold pyRound2
  constructor
  · rw [le_div_iff₀ (show (0 : ℚ) < 100 by norm_num)]
    linarith
  · rw [div_le_iff₀ (show (0 : ℚ) < 100 by norm_num)]
    linarith

/-- C7: every generated message has exactly the keys ev, rss, ms, s, mm,
plus ts exactly when the 0.3-probability draw fired and temp exactly when
the 0.2-probability draw fired; ev is the string check, the four base
integers lie in their ranges, and temp, when present, lies in
[35.5, 85.0] and is an integer number of hundredths. -/
theorem claim7_generate_message (r : RandSrc) :
    (generate_message r).map Prod.fst
      = ["ev", "rss", "ms", "s", "mm"]
        ++ (if r.addTs then ["ts"] else [])
        ++ (if r.addTemp then ["temp"] else [])
    ∧ (generate_message r).lookup "ev" = some (.jstr "check")
    ∧ (∃ v : Nat, (generate_message r).lookup "rss" = some (.jint v)
        ∧ 20 ≤ v ∧ v ≤ 95)
    ∧ (∃ v : Nat, (generate_message r).lookup "ms" = some (.jint v)
        ∧ 1000000 ≤ v ∧ v ≤ 9999999)
    ∧ (∃ v : Nat, (generate_message r).lookup "s" = some (.jint v)
        ∧ 1 ≤ v ∧ v ≤ 86400)
    ∧ (∃ v : Nat, (generate_message r).lookup "mm" = some (.jint v)
        ∧ 10000 ≤ v ∧ v ≤ 99999)
    ∧ (r.addTs = true →
        (generate_message r).lookup "ts" = some (.jint r.now))
    ∧ (r.addTemp = true → 35.5 ≤ r.tempU → r.tempU ≤ 85 →
        ∃ t : ℚ, (generate_message r).lookup "temp" = some (.jrat t)
          ∧ 35.5 ≤ t ∧ t ≤ 85 ∧ ∃ k : ℤ, t = (k : ℚ) / 100) := by
  have hrss := pyRandint_bounds 20 95 r.rssSrc (by omega)
  have hms := pyRandint_bounds 1000000 9999999 r.msSrc (by omega)
  have hsu := pyRandint_bounds 1 86400 r.sSrc (by omega)
  have hmm := pyRandint_bounds 10000 99999 r.mmSrc (by omega)
  refine ⟨?_, ?_, ⟨_, ?_, hrss.1, hrss.2⟩, ⟨_, ?_, hms.1, hms.2⟩,
    ⟨_, ?_, hsu.1, hsu.2⟩, ⟨_, ?_, hmm.1, hmm.2⟩, ?_, ?_⟩
  · cases hts : r.addTs <;> cases htmp : r.addTemp <;>
      simp [generate_message, hts, htmp]
  · cases hts : r.addTs <;> cases htmp : r.addTemp <;>
      simp [generate_message, hts, htmp, List.lookup]
  · cases hts : r.addTs <;> cases htmp : r.addTemp <;>
      simp [generate_message, hts, htmp, List.lookup]
  · cases hts : r.addTs <;> cases htmp : r.addTemp <;>
      simp [generate_message, hts, htmp, List.lookup]
  · cases hts : r.addTs <;> cases htmp : r.addTemp <;>
      simp [generate_message, hts, htmp, List.lookup]
  · cases hts : r.addTs <;> cases htmp : r.addTemp <;>
      simp [generate_message, hts, htmp, List.lookup]
  · intro hts
    cases htmp : r.addTemp <;>
      simp [generate_message, hts, htmp, List.lookup]
  · intro htmp hlo hhi
    refine ⟨pyRound2 r.tempU, ?_, ?_, ?_, round (100 * r.tempU), rfl⟩
    · cases hts : r.addTs <;>
        simp [generate_message, hts, htmp, List.lookup]
    · exact (pyRound2_bounds r.tempU 35.5 85 hlo hhi 3550 8500
        (by norm_num) (by norm_num)).1
    · exact (pyRound2_bounds r.tempU 35.5 85 hlo hhi 3550 8500
        (by norm_num) (by norm_num)).2

/-- C7 witness: with both optional draws firing and a uniform draw of 40,
the temp field is present, in range, and a whole number of hundredths. -/
theorem claim7_generate_message_witness :
    ∃ t : ℚ,
      (generate_message
        { rssSrc := 0, msSrc := 0, sSrc := 0, mmSrc := 0, addTs := true,
          addTemp := true, tempU := 40, now := 123 }).lookup "temp"
        = some (.jrat t)
      ∧ 35.5 ≤ t ∧ t ≤ 85 ∧ ∃ k : ℤ, t = (k : ℚ) / 100 :=
  (claim7_generate_message
    { rssSrc := 0, msSrc := 0, sSrc := 0, mmSrc := 0, addTs := true,
      addTemp := true, tempU := 40, now := 123 }).2.2.2.2.2.2.2
    rfl (by norm_num) (by norm_num)

/-- C8: with a missing or unreadable device file, and likewise with a file
containing an empty list, the startup hook logs an error and asks the
runner to quit, and no send task executes for that user; otherwise one
device record is selected at random and both the record and its uid are
retained in the per-user state. -/
theorem claim8_on_start :
    (∀ (c : Nat) (tasks : List (RandSrc × String × MsgResponse)),
      on_start none c
        = .quit ["Error loading devices.json",
            "Make sure to run create_devices.py first to generate the devices file."]
      ∧ userRun none c tasks = [])
    ∧ (∀ (c : Nat) (tasks : List (RandSrc × String × MsgResponse)),
      on_start (some []) c
        = .quit ["No devices found in devices.json. Run create_devices.py first."]
      ∧ userRun (some []) c tasks = [])
    ∧ (∀ devs : List DeviceRecord, devs ≠ [] → ∀ c : Nat,
      ∃ dev ∈ devs,
        on_start (some devs) c = .ready (UserState.mk dev dev.uid)) := by
  refine ⟨fun c tasks => ⟨rfl, rfl⟩, fun c tasks => ⟨rfl, rfl⟩, ?_⟩
  intro devs hne c
  cases devs with
  | nil => exact absurd rfl hne
  | cons d ds =>
    refine ⟨(d :: ds).getD (c % (d :: ds).length) d, ?_, rfl⟩
    have hlt : c % (d :: ds).length < (d :: ds).length :=
      Nat.mod_lt _ (Nat.succ_pos ds.length)
    rw [List.getD_eq_getElem?_getD, List.getElem?_eq_getElem hlt,
      Option.getD_some]
    exact List.getElem_mem hlt

/-- C8 witness: a one-record file always selects that record. -/
theorem claim8_on_start_witness :
    ∃ dev ∈ [DeviceRecord.mk 1 "u" "S"],
      on_start (some [DeviceRecord.mk 1 "u" "S"]) 0
        = .ready (UserState.mk dev dev.uid) :=
  claim8_on_start.2.2 [DeviceRecord.mk 1 "u" "S"] (by simp) 0

/-- C9: within one provisioning run of count N, the serial sent for index i
is the string LOADTEST followed by i zero-padded to a minimum width of 4,
and the serials of two distinct indices below N are distinct. -/
theorem claim9_serials (uuidGen : Nat → String) (orgId : Int) (N i j : Nat)
    (hi : i < N) (hj : j < N) :
    (devicePayload uuidGen orgId i).serial = "LOADTEST" ++ fmt04 i
    ∧ (i ≠ j →
        (devicePayload uuidGen orgId i).serial
          ≠ (devicePayload uuidGen orgId j).serial) :=
  ⟨rfl, fun hne heq => hne (serialOf_injective i j heq)⟩

/-- C9 witness: indices 0 and 1 of a run of 2 devices carry the serials
LOADTEST0000 and LOADTEST0001, which differ. -/
theorem claim9_serials_witness :
    ((devicePayload (fun _ => "u") 0 0).serial = "LOADTEST" ++ fmt04 0
      ∧ (0 ≠ 1 →
          (devicePayload (fun _ => "u") 0 0).serial
            ≠ (devicePayload (fun _ => "u") 0 1).serial))
    ∧ (devicePayload (fun _ => "u") 0 0).serial = "LOADTEST0000"
    ∧ (devicePayload (fun _ => "u") 0 1).serial = "LOADTEST0001" :=
  ⟨claim9_serials (fun _ => "u") 0 2 0 1 (by decide) (by decide),
    by decide, by decide⟩

/-- C10 counterexample: the claim speaks of any 2xx status, but a request
answered 204 with a body lacking both id and uid raises nothing: the code
treats 204 as a failure, skips the record, and still writes the file. -/
theorem claim10_counterexample :
    create_devices (fun _ => DevResponse.mk 204 none none "No Content")
        (fun _ => "u") 0 1
      = .ok ([], [Event.failLog 1 204 "No Content"])
    ∧ is2xx 204 = true
    ∧ ((fun _ => DevResponse.mk 204 none none "No Content") 0).body_id = none
    ∧ artifactFile (fun _ => DevResponse.mk 204 none none "No Content")
        (fun _ => "u") 0 1 = some [] :=
  ⟨rfl, rfl, rfl, rfl⟩

/-- C10 amended: if any request below the count is answered with status 200
or 201 and a body on which the id or uid lookup fails, create_devices
raises an uncaught exception and the output file is never written; likewise
create_organization raises on a 200 or 201 response whose body lacks id.
Neither function guards these lookups. -/
theorem claim10_missing_key_raises :
    (∀ (oracle : Nat → DevResponse) (uuidGen : Nat → String) (orgId : Int)
      (n : Nat),
      (∃ i, i < n ∧ pySuccessStatus (oracle i).status = true
        ∧ ((oracle i).body_id = none ∨ (oracle i).body_uid = none)) →
      (∃ e, create_devices oracle uuidGen orgId n = .error e)
      ∧ artifactFile oracle uuidGen orgId n = none)
    ∧ (∀ resp : DevResponse, pySuccessStatus resp.status = true →
        resp.body_id = none →
        create_organization resp = .raised "KeyError: id") := by
  constructor
  · intro oracle uuidGen orgId n ⟨i, hin, hs, hbad⟩
    obtain ⟨e, herr⟩ := devLoop_error_of_bad oracle uuidGen orgId
      (List.range n) ⟨i, List.mem_range.mpr hin, hs, hbad⟩
    refine ⟨⟨e, herr⟩, ?_⟩
    unfold artifactFile create_devices
    rw [herr]
    rfl
  · intro resp hs hid
    simp [create_organization, hs, hid]

/-- C10 witness: a single request answered 200 with a body lacking uid
makes the run raise, and no file is written. -/
theorem claim10_missing_key_raises_witness :
    (∃ e, create_devices (fun _ => DevResponse.mk 200 (some 7) none "")
        (fun _ => "u") 0 1 = .error e)
    ∧ artifactFile (fun _ => DevResponse.mk 200 (some 7) none "")
        (fun _ => "u") 0 1 = none :=
  claim10_missing_key_raises.1 (fun _ => DevResponse.mk 200 (some 7) none "")
    (fun _ => "u") 0 1 ⟨0, by decide, rfl, Or.inr rfl⟩

end Backstage
